import Mathlib

/-!
Verification of the wa-gateway multi-session connection and event-delivery
engine against its specification.

The repository's visible application code is the health controller
(src/src/controllers/health.ts) plus deployment scaffolding; the core engine
(Credential Store, Session, Session Registry, Event Dispatcher, Media Bridge)
is specified in spec.md sections 3-7.  Definitions below embed the health
controller from its source; the engine components are modelled from the
specification text, as noted on each definition.
-/

namespace WaGateway

/-! ## Health controller (from src/src/controllers/health.ts) -/

/-- Shape of the JSON body returned by the health endpoint.  The source
builds it as
`{ status: "healthy", timestamp: ..., uptime: ..., memory: ..., version: "4.3.2" }`. -/
structure HealthResponse where
  status : String
  timestamp : String
  uptime : Nat
  memoryRss : Nat
  version : String
deriving Repr, DecidableEq

/-- Embedding of the GET handler in `createHealthController`: the dynamic
inputs (current time, process uptime, memory usage) are parameters; the
`status` and `version` fields are the literal constants from the source. -/
def healthHandler (timestamp : String) (uptime : Nat) (memoryRss : Nat) :
    HealthResponse :=
  { status := "healthy"
  , timestamp := timestamp
  , uptime := uptime
  , memoryRss := memoryRss
  , version := "4.3.2" }

/-! ## Session state machine (spec section 4.2) -/

/-- Session status enum from the spec data model (section 3). -/
inductive SessionStatus
  | Initializing
  | AwaitingPairing
  | Connected
  | Reconnecting
  | LoggedOut
  | Closed
deriving Repr, DecidableEq, Fintype

/-- Signals that drive the session state machine in spec section 4.2:
handshake outcomes, pairing completion, transport drops, reconnect success,
remote auth revocation, and operator-initiated stop. -/
inductive SessionSignal
  | credsValidHandshakeOk
  | noValidCreds
  | pairingComplete
  | transportDisconnect
  | reconnectSucceeded
  | authRevoked
  | operatorStop
deriving Repr, DecidableEq, Fintype

/-- Modelled from the spec: the Session state machine of section 4.2 is not
under src/ (the protocol-client supervision code is absent from the visible
sources).  Transitions follow the bullet list of section 4.2 verbatim:
`authRevoked` sends any non-terminal state to `LoggedOut`, `operatorStop`
sends any non-terminal state to `Closed`, `Connected` goes to `Reconnecting`
on a transport-level disconnect, `Reconnecting` returns to `Connected` on a
successful re-handshake, and unlisted pairs leave the state unchanged. -/
def sessionStep (s : SessionStatus) (sig : SessionSignal) : SessionStatus :=
  match s, sig with
  | .LoggedOut, _ => .LoggedOut
  | .Closed, _ => .Closed
  | _, .authRevoked => .LoggedOut
  | _, .operatorStop => .Closed
  | .Initializing, .credsValidHandshakeOk => .Connected
  | .Initializing, .noValidCreds => .AwaitingPairing
  | .AwaitingPairing, .pairingComplete => .Connected
  | .Connected, .transportDisconnect => .Reconnecting
  | .Reconnecting, .reconnectSucceeded => .Connected
  | st, _ => st

/-- Terminal statuses of the session state machine: `LoggedOut` and
`Closed` (spec section 7: only `AuthRevoked` and explicit `stop()` are
terminal). -/
def SessionStatus.isTerminal : SessionStatus → Bool
  | .LoggedOut => true
  | .Closed => true
  | _ => false

/-! ## Session entity and registry (spec sections 3, 4.3) -/

/-- Session identifier: an opaque, externally supplied string (spec
section 3). -/
abbrev SessionId := String

/-- Modelled from the spec: the Session entity of section 3 is not under
src/.  We keep the identifier and the status state machine; the opaque
credential blob and timestamps do not affect the claims below. -/
structure Session where
  id : SessionId
  status : SessionStatus
deriving Repr, DecidableEq

/-- A Session is live (running) when it has not reached a terminal
status. -/
def Session.isLive (s : Session) : Bool :=
  !(s.status.isTerminal)

/-- Modelled from the spec: the process-wide Session Registry of section
4.3 is not under src/.  It is a table of Sessions keyed by identifier; the
spec requires all mutations to be serialized (section 5), so the table is
modelled as a list whose mapped identifiers are nodup. -/
abbrev Registry := List Session

/-- Registry lookup by identifier (part of the section 4.3 contract). -/
def Registry.lookup (reg : Registry) (id : SessionId) : Option Session :=
  reg.find? (fun s => s.id == id)

/-- Modelled from the spec: a freshly created Session starts in
`Initializing` (section 4.2 lifecycle). -/
def newSession (id : SessionId) : Session :=
  { id := id, status := .Initializing }

/-- Modelled from the spec: `getOrCreate` of section 4.3.  On an `id` with
an already-present Session it returns the existing instance and leaves the
table untouched; otherwise it inserts a fresh Session for `id`. -/
def Registry.getOrCreate (reg : Registry) (id : SessionId) :
    Session × Registry :=
  match reg.lookup id with
  | some s => (s, reg)
  | none => (newSession id, newSession id :: reg)

/-- Registry removal by identifier (part of the section 4.3 contract). -/
def Registry.remove (reg : Registry) (id : SessionId) : Registry :=
  reg.filter (fun s => !(s.id == id))

/-- The one-connection-per-id invariant of section 4.3: identifiers in the
registry are pairwise distinct, so at most one Session exists per id. -/
def Registry.uniqueIds (reg : Registry) : Prop :=
  (reg.map Session.id).Nodup

/-! ## Credential Store (spec section 4.1) -/

/-- Result of a Credential Store `load` (section 4.1 contract).  A
`fatal` constructor is included so that the no-fatal-error policy of
section 4.1 is a statement about `load`, not a typing accident. -/
inductive LoadResult
  | found (creds : String)
  | notFound
  | fatal
deriving Repr, DecidableEq

/-- Modelled from the spec: the Credential Store of section 4.1 is not
under src/.  The on-disk directory is a partial map from identifiers to raw
file contents, and `parse` is the decoder that fails on a corrupt file.  A
missing file and a corrupt file both yield `notFound` (section 4.1: a
corrupt file on load is treated as NotFound rather than a fatal error). -/
def load (parse : String → Option String) (files : SessionId → Option String)
    (id : SessionId) : LoadResult :=
  match files id with
  | none => .notFound
  | some raw =>
    match parse raw with
    | none => .notFound
    | some creds => .found creds

/-! ## LoggedOut teardown (spec sections 4.2, 4.3) -/

/-- Modelled from the spec: joint state of the Registry and the Credential
Store directory, the two structures touched by `LoggedOut` teardown.
`credIds` is the set of identifiers that currently have a credential
file. -/
structure GatewayState where
  registry : Registry
  credIds : List SessionId
deriving Repr, DecidableEq

/-- Modelled from the spec: the terminal `LoggedOut` transition of section
4.2 — credentials are deleted from the Credential Store and the Session is
removed from the Registry. -/
def handleLoggedOut (st : GatewayState) (id : SessionId) : GatewayState :=
  { registry := st.registry.remove id
  , credIds := st.credIds.filter (fun j => !(j == id)) }

/-! ## Outbound send (spec sections 4.2, 7) -/

/-- Outbound message content, as in the section 8 scenario
`sendMessage("acct-1", {to:"123", text:"hi"})`. -/
structure OutMessage where
  «to» : String
  text : String
deriving Repr, DecidableEq

/-- Errors a `sendMessage` call can surface (sections 4.2 and 7). -/
inductive SendError
  | NotConnected
  | ProtocolFailure
deriving Repr, DecidableEq

/-- Result of `sendMessage`: a MessageId or an Error (section 4.2
contract). -/
inductive SendResult
  | ok (msgId : Nat)
  | err (e : SendError)
deriving Repr, DecidableEq

/-- Modelled from the spec: the observable per-session sending state.
`outboundCalls` counts outbound protocol calls attempted, and
`pendingOutbox` is a hypothetical hidden outbound mailbox — section 4.2
states there is none, so `sendMessage` must never grow it. -/
structure SendState where
  status : SessionStatus
  outboundCalls : Nat
  pendingOutbox : List OutMessage
deriving Repr, DecidableEq

/-- Modelled from the spec: `sendMessage` of section 4.2, with the protocol
client abstracted as the oracle `proto`.  Unless the status is `Connected`
the call is rejected synchronously with `NotConnected` and nothing else
happens; otherwise one outbound protocol call is attempted and its result
returned. -/
def sendMessage (proto : OutMessage → SendResult) (s : SendState)
    (msg : OutMessage) : SendResult × SendState :=
  if s.status = .Connected then
    (proto msg, { s with outboundCalls := s.outboundCalls + 1 })
  else
    (.err .NotConnected, s)

/-! ## Events and webhook delivery (spec sections 3, 4.4) -/

/-- Event type tags from the section 3 data model. -/
inductive EventType
  | Message
  | StatusUpdate
  | QrRequest
  | ConnectionChange
  | MediaReceived
deriving Repr, DecidableEq

/-- An emitted Event (section 3): produced by exactly one Session,
immutable once emitted.  The payload is kept opaque. -/
structure Event where
  sessionId : SessionId
  eventType : EventType
  timestamp : Nat
  payload : String
deriving Repr, DecidableEq

/-- Outcome of delivering one Event: delivered after some number of
attempts, or dropped after exhausting them (section 4.4). -/
inductive DeliveryOutcome
  | delivered (attemptsUsed : Nat)
  | dropped (attemptsUsed : Nat)
deriving Repr, DecidableEq

/-- Modelled from the spec: the bounded retry loop of section 4.4.
`respondOk k` tells whether attempt number `k` (0-based) gets a 2xx
response; `remaining` is how many attempts may still be made and `used` how
many have been made.  The loop stops at the first success or when the
attempt budget is exhausted, recording a drop. -/
def deliverWithRetry (respondOk : Nat → Bool) :
    Nat → Nat → DeliveryOutcome
  | 0, used => .dropped used
  | remaining + 1, used =>
    if respondOk used then .delivered (used + 1)
    else deliverWithRetry respondOk remaining (used + 1)

/-- Modelled from the spec: delivery of one Event with the configured
maximum attempt count (section 4.4). -/
def deliverEvent (respondOk : Event → Nat → Bool) (maxAttempts : Nat)
    (e : Event) : DeliveryOutcome :=
  deliverWithRetry (respondOk e) maxAttempts 0

/-- Modelled from the spec: the per-session ordered delivery queue of
section 4.4.  Events are taken strictly in emission order; each is retried
up to the attempt cap, and an exhausted Event is dropped so the queue keeps
draining.  The result is the list of Events actually delivered to the
webhook, in delivery order. -/
def processQueue (respondOk : Event → Nat → Bool) (maxAttempts : Nat) :
    List Event → List Event
  | [] => []
  | e :: rest =>
    match deliverEvent respondOk maxAttempts e with
    | .delivered _ => e :: processQueue respondOk maxAttempts rest
    | .dropped _ => processQueue respondOk maxAttempts rest

/-! ## Media Bridge (spec section 4.5) -/

/-- Modelled from the spec: the content hash of section 4.5, a
deterministic digest of the media bytes used as the storage key. -/
def hashContent (bytes : List Nat) : Nat :=
  bytes.foldl (fun h b => h * 31 + b + 1) 5381

/-- Modelled from the spec: the content-addressed media store is the set of
content hashes that have a file, with a flag reporting whether this call
performed a write.  Section 4.5: write the bytes if not already present;
re-delivery of the same content is a no-op write. -/
def writeMedia (store : List Nat) (content : List Nat) :
    List Nat × Bool :=
  let h := hashContent content
  if h ∈ store then (store, false) else (h :: store, true)

/-- The forwarded form of a `MediaReceived` Event after the Media Bridge:
the inline payload is replaced by a reference URL path, or by an explicit
`mediaUnavailable` marker when persisting failed (section 4.5). -/
structure ForwardedEvent where
  sessionId : SessionId
  eventType : EventType
  mediaRef : Option String
  mediaUnavailable : Bool
deriving Repr, DecidableEq

/-- Modelled from the spec: reference URL path derived from the content
hash, `<hash-head>/<hash>` under the storage root (section 4.5). -/
def mediaPath (h : Nat) : String :=
  toString (h % 256) ++ "/" ++ toString h

/-- Modelled from the spec: Media Bridge handling of one `MediaReceived`
Event (section 4.5).  `writeOk` abstracts whether the storage write
succeeds.  On success the store is updated and the Event forwarded with a
reference path; on failure the Event is still forwarded, with the
`mediaUnavailable` marker set.  A `none` second component would mean the
Event was suppressed; the bridge never produces it. -/
def bridgeMedia (writeOk : Bool) (store : List Nat) (e : Event)
    (content : List Nat) : List Nat × Option ForwardedEvent :=
  if writeOk then
    ((writeMedia store content).1,
      some { sessionId := e.sessionId
           , eventType := e.eventType
           , mediaRef := some (mediaPath (hashContent content))
           , mediaUnavailable := false })
  else
    (store,
      some { sessionId := e.sessionId
           , eventType := e.eventType
           , mediaRef := none
           , mediaUnavailable := true })

/-! ## Shared helper lemmas -/

/-- If a keyed list has pairwise-distinct keys, at most one element carries
any given key. -/
theorem length_filter_key_le_one {α : Type} (f : α → String) (a : String) :
    ∀ l : List α, (l.map f).Nodup →
      (l.filter (fun x => f x == a)).length ≤ 1 := by
  intro l
  induction l with
  | nil => intro _; simp
  | cons x xs ih =>
    intro hnd
    rw [List.map_cons, List.nodup_cons] at hnd
    by_cases hx : f x = a
    · have hempty : xs.filter (fun y => f y == a) = [] := by
        rw [List.filter_eq_nil_iff]
        intro y hy
        simp only [beq_iff_eq]
        intro hya
        exact hnd.1 (hx ▸ hya ▸ List.mem_map_of_mem f hy)
      simp [List.filter_cons, hx, hempty]
    · have : (f x == a) = false := by simp [hx]
      simp only [List.filter_cons, this, cond_false]
      exact ih hnd.2

/-- An always-failing responder makes the retry loop consume its whole
attempt budget and end in a drop. -/
theorem deliverWithRetry_all_fail (resp : Nat → Bool)
    (hfail : ∀ k, resp k = false) :
    ∀ remaining used, deliverWithRetry resp remaining used =
      DeliveryOutcome.dropped (used + remaining) := by
  intro remaining
  induction remaining with
  | zero => intro used; simp [deliverWithRetry]
  | succ n ih =>
    intro used
    rw [deliverWithRetry, hfail used, if_neg (by simp), ih (used + 1)]
    congr 1
    omega

/-! ## Claim theorems -/

/-- C10: every GET to the health endpoint returns a body whose `status`
field is the constant string "healthy" and whose `version` field is the
constant string "4.3.2", for every combination of the dynamic inputs
(timestamp, uptime, memory) — the handler consults no session, registry or
delivery state and can never report an unhealthy status. -/
theorem health_always_healthy (timestamp : String) (uptime memoryRss : Nat) :
    (healthHandler timestamp uptime memoryRss).status = "healthy" ∧
    (healthHandler timestamp uptime memoryRss).version = "4.3.2" :=
  ⟨rfl, rfl⟩

/-- C9: a Session reaches a terminal status only through the explicit
`authRevoked` signal (giving `LoggedOut`) or the explicit `operatorStop`
call (giving `Closed`); a transport-level disconnect while `Connected`
always yields `Reconnecting`, never a terminal status. -/
theorem session_terminal_discipline :
    (∀ s sig, (sessionStep s sig).isTerminal = true → s.isTerminal = false →
      sig = SessionSignal.authRevoked ∨ sig = SessionSignal.operatorStop) ∧
    (∀ s, s.isTerminal = false →
      sessionStep s SessionSignal.authRevoked = SessionStatus.LoggedOut) ∧
    (∀ s, s.isTerminal = false →
      sessionStep s SessionSignal.operatorStop = SessionStatus.Closed) ∧
    sessionStep SessionStatus.Connected SessionSignal.transportDisconnect =
      SessionStatus.Reconnecting := by
  refine ⟨?_, ?_, ?_, rfl⟩ <;> decide

/-- Witness for C9 at a concrete transition: from `Connected`, the only way
the step lands in `Closed` is the `operatorStop` signal, as the theorem
concludes at this input. -/
theorem session_terminal_discipline_witness :
    SessionSignal.operatorStop = SessionSignal.authRevoked ∨
      SessionSignal.operatorStop = SessionSignal.operatorStop :=
  session_terminal_discipline.1 SessionStatus.Connected
    SessionSignal.operatorStop (by decide) (by decide)

/-- C1: for every id at most one live Session exists in the Registry:
`getOrCreate` on an id that is already present returns the existing
instance and leaves the table untouched (no second connection is created),
the distinct-ids invariant is preserved by `getOrCreate`, and under that
invariant the table never holds two Sessions for the same id. -/
theorem getOrCreate_single_live_session :
    (∀ (reg : Registry) (id : SessionId) (s : Session),
      reg.lookup id = some s → reg.getOrCreate id = (s, reg)) ∧
    (∀ (reg : Registry) (id : SessionId),
      reg.uniqueIds → ((reg.getOrCreate id).2).uniqueIds) ∧
    (∀ (reg : Registry) (id : SessionId), reg.uniqueIds →
      (((reg.getOrCreate id).2).filter (fun s => s.id == id)).length ≤ 1) := by
  have hpres : ∀ (reg : Registry) (id : SessionId),
      reg.uniqueIds → ((reg.getOrCreate id).2).uniqueIds := by
    intro reg id hnd
    unfold Registry.getOrCreate
    cases hl : reg.lookup id with
    | some s => exact hnd
    | none =>
      simp only
      rw [Registry.uniqueIds, List.map_cons, List.nodup_cons]
      refine ⟨?_, hnd⟩
      rw [Registry.lookup, List.find?_eq_none] at hl
      simp only [List.mem_map, not_exists]
      rintro x ⟨hx, hxid⟩
      exact hl x hx (by simp [newSession] at hxid ⊢; exact hxid)
  refine ⟨?_, hpres, ?_⟩
  · intro reg id s h
    unfold Registry.getOrCreate
    rw [h]
  · intro reg id hnd
    exact length_filter_key_le_one Session.id id _ (hpres reg id hnd)

/-- Witness for C1: a registry already holding a running Session for
"acct-1" returns that very instance from `getOrCreate` and is left
unchanged. -/
theorem getOrCreate_single_live_session_witness :
    Registry.getOrCreate [Session.mk "acct-1" SessionStatus.Connected]
        "acct-1" =
      (Session.mk "acct-1" SessionStatus.Connected,
        [Session.mk "acct-1" SessionStatus.Connected]) :=
  getOrCreate_single_live_session.1 _ "acct-1" _ rfl

/-- C2: `sendMessage` in any status other than `Connected` returns the
`NotConnected` error synchronously with the session state untouched — no
outbound protocol call is attempted (`outboundCalls` unchanged) and nothing
is queued (`pendingOutbox` unchanged in every case); when the status is
`Connected` the call forwards to the protocol client and yields a
MessageId or an Error. -/
theorem sendMessage_requires_connected (proto : OutMessage → SendResult)
    (s : SendState) (msg : OutMessage) :
    (s.status ≠ SessionStatus.Connected →
      sendMessage proto s msg = (SendResult.err SendError.NotConnected, s)) ∧
    ((sendMessage proto s msg).2.pendingOutbox = s.pendingOutbox) ∧
    (s.status ≠ SessionStatus.Connected →
      (sendMessage proto s msg).2.outboundCalls = s.outboundCalls) ∧
    (s.status = SessionStatus.Connected →
      (sendMessage proto s msg).1 = proto msg ∧
      ((∃ m, proto msg = SendResult.ok m) ∨
        (∃ e, proto msg = SendResult.err e))) := by
  unfold sendMessage
  by_cases h : s.status = SessionStatus.Connected
  · refine ⟨fun hne => absurd h hne, ?_, fun hne => absurd h hne, fun _ => ?_⟩
    · simp [h]
    · refine ⟨by simp [h], ?_⟩
      cases hp : proto msg with
      | ok m => exact Or.inl ⟨m, rfl⟩
      | err e => exact Or.inr ⟨e, rfl⟩
  · refine ⟨fun _ => by simp [h], by simp [h], fun _ => by simp [h],
      fun hc => absurd hc h⟩

/-- Witness for C2, the section 8 scenario: `sendMessage` with
`{to:"123", text:"hi"}` while the status is `Reconnecting` returns
`NotConnected` and leaves the session state (call count, outbox)
untouched, even though the protocol oracle would have accepted the
message. -/
theorem sendMessage_requires_connected_witness :
    sendMessage (fun _ => SendResult.ok 7)
        (SendState.mk SessionStatus.Reconnecting 0 [])
        (OutMessage.mk "123" "hi") =
      (SendResult.err SendError.NotConnected,
        SendState.mk SessionStatus.Reconnecting 0 []) :=
  (sendMessage_requires_connected (fun _ => SendResult.ok 7)
      (SendState.mk SessionStatus.Reconnecting 0 [])
      (OutMessage.mk "123" "hi")).1 (by decide)

/-- C3: after the `LoggedOut` teardown completes, the Credential Store
holds no credential file for the Session's id and the Registry no longer
contains a Session for that id. -/
theorem loggedOut_clears_credentials_and_registry (st : GatewayState)
    (id : SessionId) :
    id ∉ (handleLoggedOut st id).credIds ∧
    (handleLoggedOut st id).registry.lookup id = none := by
  constructor
  · intro hmem
    rw [handleLoggedOut] at hmem
    simp [List.mem_filter] at hmem
  · rw [handleLoggedOut]
    simp only [Registry.lookup, Registry.remove]
    rw [List.find?_eq_none]
    intro x hx
    rw [List.mem_filter] at hx
    simpa using hx.2

/-- Witness for C3: tearing down "acct-1" from a state that holds its
credential file and its running Session leaves neither behind. -/
theorem loggedOut_clears_credentials_and_registry_witness :
    "acct-1" ∉ (handleLoggedOut
        (GatewayState.mk [Session.mk "acct-1" SessionStatus.Connected]
          ["acct-1"]) "acct-1").credIds ∧
    (handleLoggedOut
        (GatewayState.mk [Session.mk "acct-1" SessionStatus.Connected]
          ["acct-1"]) "acct-1").registry.lookup "acct-1" = none :=
  loggedOut_clears_credentials_and_registry
    (GatewayState.mk [Session.mk "acct-1" SessionStatus.Connected]
      ["acct-1"]) "acct-1"

/-- C4: when every delivery attempt for an Event fails, the Dispatcher
retries exactly up to the configured maximum attempt count, ends with the
Event recorded as dropped, and the per-session queue keeps draining — the
queue with the failing Event at its head delivers exactly what the queue
without it delivers. -/
theorem retry_exhaustion_records_drop (respondOk : Event → Nat → Bool)
    (maxAttempts : Nat) (e : Event) (rest : List Event)
    (hfail : ∀ k, respondOk e k = false) :
    deliverEvent respondOk maxAttempts e =
      DeliveryOutcome.dropped maxAttempts ∧
    processQueue respondOk maxAttempts (e :: rest) =
      processQueue respondOk maxAttempts rest := by
  have hd : deliverEvent respondOk maxAttempts e =
      DeliveryOutcome.dropped maxAttempts := by
    rw [deliverEvent, deliverWithRetry_all_fail _ hfail, Nat.zero_add]
  exact ⟨hd, by simp only [processQueue, hd]⟩

/-- Witness for C4: against an endpoint that always fails (the mock
always-500 endpoint of section 8) with a cap of 3 attempts, a Message
Event is dropped after exactly 3 attempts and the queue it headed drains
to empty rather than blocking. -/
theorem retry_exhaustion_records_drop_witness :
    deliverEvent (fun _ _ => false) 3
        (Event.mk "acct-1" EventType.Message 0 "hi") =
      DeliveryOutcome.dropped 3 ∧
    processQueue (fun _ _ => false) 3
        [Event.mk "acct-1" EventType.Message 0 "hi"] = [] := by
  have h := retry_exhaustion_records_drop (fun _ _ => false) 3
    (Event.mk "acct-1" EventType.Message 0 "hi") [] (fun _ => rfl)
  exact ⟨h.1, h.2⟩

/-- C5: a Credential Store `load` on a corrupt credential file (the file
exists but fails to parse) returns `notFound`, forcing re-pairing; and
`load` can never return a fatal outcome, whatever the directory contents
and decoder behaviour. -/
theorem corrupt_credential_load_not_fatal (parse : String → Option String)
    (files : SessionId → Option String) (id : SessionId) :
    (∀ raw, files id = some raw → parse raw = none →
      load parse files id = LoadResult.notFound) ∧
    load parse files id ≠ LoadResult.fatal := by
  constructor
  · intro raw hf hp
    simp only [load, hf, hp]
  · simp only [load]
    cases files id with
    | none => simp
    | some raw =>
      cases hp : parse raw with
      | none => simp [hp]
      | some creds => simp [hp]

/-- Witness for C5: loading "acct-1" from a directory whose file holds
undecodable bytes yields `notFound`, not a fatal outcome. -/
theorem corrupt_credential_load_not_fatal_witness :
    load (fun _ => none) (fun _ => some "garbage") "acct-1" =
      LoadResult.notFound :=
  (corrupt_credential_load_not_fatal (fun _ => none)
      (fun _ => some "garbage") "acct-1").1 "garbage" rfl rfl

/-- C6: the media write is idempotent by content hash — processing the same
content bytes a second time performs no write (the write flag is false),
leaves the store exactly as the first processing left it, and adds no
file (the store size is unchanged). -/
theorem media_write_idempotent (store content : List Nat) :
    (writeMedia (writeMedia store content).1 content).1 =
      (writeMedia store content).1 ∧
    (writeMedia (writeMedia store content).1 content).2 = false ∧
    (writeMedia (writeMedia store content).1 content).1.length =
      (writeMedia store content).1.length := by
  by_cases h : hashContent content ∈ store
  · simp [writeMedia, h]
  · simp [writeMedia, h]

/-- C7: when persisting the media payload fails, the Media Bridge still
forwards the surrounding Event — with the inline payload replaced by the
explicit `mediaUnavailable` marker and the store untouched — and whatever
the write outcome, the bridge never suppresses an Event. -/
theorem media_failure_degrades_event (store : List Nat) (e : Event)
    (content : List Nat) :
    bridgeMedia false store e content =
      (store,
        some (ForwardedEvent.mk e.sessionId e.eventType none true)) ∧
    (∀ ok, ((bridgeMedia ok store e content).2).isSome = true) := by
  refine ⟨rfl, ?_⟩
  intro ok
  cases ok <;> rfl

/-- C8: the Events a session's queue actually delivers to the webhook form
a subsequence of the emission-ordered queue — delivery preserves the
relative emission order, and since each Event's retries complete (or
exhaust) before the next Event is attempted, a retried earlier Event can
never be overtaken by a later one. -/
theorem delivery_preserves_emission_order (respondOk : Event → Nat → Bool)
    (maxAttempts : Nat) (queue : List Event) :
    List.Sublist (processQueue respondOk maxAttempts queue) queue := by
  induction queue with
  | nil => simp [processQueue]
  | cons e rest ih =>
    cases hde : deliverEvent respondOk maxAttempts e with
    | delivered n =>
      simp only [processQueue, hde]
      exact List.Sublist.cons₂ e ih
    | dropped n =>
      simp only [processQueue, hde]
      exact List.Sublist.cons e ih

end WaGateway
